import Mathlib

/-
Verification development for the FastAPI Manim animation service.

The definitions below are a shallow embedding of the Python sources under
app/services and app/models:
  - app/models/db_models.py       (Conversation, Animation, Message, enums)
  - app/core/config.py            (the Settings object and its field set)
  - app/services/conversation_service.py
  - app/services/animation_service.py
  - app/services/message_service.py
  - app/services/manim_service.py (quality map, code generation, subprocess
                                   runner and the orchestrator)

Database rows are modelled as Lean structures collected in lists; identity
columns (uuid4 primary keys in the source) are modelled by a fresh-id counter
`nextId` on the database state, which captures exactly the freshness the code
relies on.  Timestamps are not modelled; list order stands in for insertion
order (rows are only ever appended).  Progress values in the source are float
literals 0.0, 10.0, 30.0, 40.0, 80.0, 100.0 compared only for equality, so
they are modelled as the corresponding naturals.  The filesystem is a set of
directory paths and file paths (paths are segment lists); file contents are
not tracked because no property under study reads them back.
-/

set_option autoImplicit false

namespace ManimApp

/-- Enum `AnimationStatus` from app/models/db_models.py. -/
inductive AnimationStatus where
  | pending
  | processing
  | completed
  | failed
deriving DecidableEq, Repr

/-- Enum `MessageType` from app/models/db_models.py. -/
inductive MessageType where
  | user
  | ai
deriving DecidableEq, Repr

/-- Row of the `conversations` table (db_models.Conversation).  The
`created_at` / `updated_at` timestamp columns are not modelled. -/
structure Conversation where
  id : Nat
  user_id : Nat
  title : String
deriving DecidableEq, Repr

/-- Row of the `animations` table (db_models.Animation).
Source note: `save_animation` in conversation_service.py shadows its `query`
parameter with the version-lookup SELECT statement before constructing the
row, so the stored `query` column never receives the caller's text; the
column is therefore left out of the model (no property below reads it). -/
structure Animation where
  id : Nat
  conversation_id : Nat
  user_id : Nat
  generated_code : String
  video_url : String
  version : Nat
  quality : String
  success : Bool
  error_message : Option String
  status : AnimationStatus
  progress : Nat
  status_message : Option String
deriving DecidableEq, Repr

/-- Row of the `messages` table (db_models.Message). -/
structure Message where
  id : Nat
  conversation_id : Nat
  user_id : Nat
  content : String
  type : MessageType
  animation_id : Option Nat
deriving DecidableEq, Repr

/-- The relational store: the three tables plus a fresh-id counter standing
in for uuid4 primary-key generation. -/
structure DB where
  conversations : List Conversation
  animations : List Animation
  messages : List Message
  nextId : Nat
deriving DecidableEq, Repr

/-- Well-formedness of a database state: every stored id, and every
conversation back-reference, is below the fresh-id counter.  This is the
freshness invariant uuid4 primary keys give the real store. -/
def DB.wf (db : DB) : Prop :=
  (∀ c ∈ db.conversations, c.id < db.nextId) ∧
  (∀ a ∈ db.animations, a.id < db.nextId ∧ a.conversation_id < db.nextId) ∧
  (∀ m ∈ db.messages, m.id < db.nextId)

/-- Python truthiness of an `Optional[str]` value: `None` and `""` are falsy,
every other string is truthy. -/
def truthyStr : Option String → Bool
  | none => false
  | some s => s != ""

/-- Python `str.strip()`: remove leading and trailing whitespace.  (The
core-library `String.trim` is semantically the same but its auxiliaries do
not reduce in the kernel, so the model works on the character list.) -/
def pyStrip (s : String) : String :=
  String.mk (((s.data.dropWhile Char.isWhitespace).reverse.dropWhile
    Char.isWhitespace).reverse)

/-- Worker for `pyWords`: scan the characters, accumulating the current word
reversed. -/
def pyWordsAux : List Char → List Char → List String
  | [], acc => if acc.isEmpty then [] else [String.mk acc.reverse]
  | c :: rest, acc =>
    if c.isWhitespace then
      if acc.isEmpty then pyWordsAux rest []
      else String.mk acc.reverse :: pyWordsAux rest []
    else pyWordsAux rest (c :: acc)

/-- Python `str.split()` with no arguments: the maximal runs of
non-whitespace characters, with no empty pieces. -/
def pyWords (s : String) : List String := pyWordsAux s.data []

/-- Python `str.lower()` (the queries under study are ASCII). -/
def pyLower (s : String) : String := String.mk (s.data.map Char.toLower)

/-! ### app/core/config.py — the Settings object

`Settings` is a pydantic model, so reading an attribute that is not among its
declared fields raises `AttributeError` (pydantic v2 drops extra fields).
`getSettingPath` / `getSettingBool` model attribute access for the path-valued
and bool-valued fields the services read; names outside the declared field
set yield `none`, the model of `AttributeError`.  In particular config.py
declares `TEMP_BASE_DIR`, `STATIC_VIDEOS_DIR` and `SERVED_VIDEOS_PATH_PREFIX`
but neither `STATIC_DIR` nor `CLEANUP_TEMP_FILES`, both of which
manim_service.py reads. -/

/-- Path-valued attribute lookup on `settings` (config.py). -/
def getSettingPath (attr : String) : Option (List String) :=
  if attr = "TEMP_BASE_DIR" then some ["temp_manim_jobs"]
  else if attr = "STATIC_VIDEOS_DIR" then some ["temp_manim_jobs", "public_videos"]
  else none

/-- Bool-valued attribute lookup on `settings` (config.py): the declared
boolean fields are DEBUG (default True), JSON_LOGS and DATABASE_ECHO
(default False).  `CLEANUP_TEMP_FILES` is not declared. -/
def getSettingBool (attr : String) : Option Bool :=
  if attr = "DEBUG" then some true
  else if attr = "JSON_LOGS" then some false
  else if attr = "DATABASE_ECHO" then some false
  else none

/-- `settings.TEMP_BASE_DIR` (declared, default `Path("temp_manim_jobs")`). -/
def TEMP_BASE_DIR : List String := ["temp_manim_jobs"]

/-- Python exceptions that the modelled code can raise. -/
inductive Exc where
  | valueError (msg : String)
  | attributeError (attr : String)
deriving DecidableEq, Repr

/-- `str(e)` for the modelled exceptions (CPython renders AttributeError on a
pydantic model as shown). -/
def excMsg : Exc → String
  | .valueError m => m
  | .attributeError a => "\x27Settings\x27 object has no attribute \x27" ++ a ++ "\x27"

/-! ### Filesystem model -/

/-- A filesystem: directory paths and file paths, each a list of segments. -/
structure FS where
  dirs : List (List String)
  files : List (List String)
deriving DecidableEq, Repr

/-- `Path.mkdir(exist_ok=True)`. -/
def FS.mkdirp (fs : FS) (d : List String) : FS :=
  if fs.dirs.contains d then fs else { fs with dirs := fs.dirs ++ [d] }

/-- Creating a file (`open(path, "w")` / `shutil.copy2` target). -/
def FS.writeFile (fs : FS) (f : List String) : FS :=
  if fs.files.contains f then fs else { fs with files := fs.files ++ [f] }

/-- `Path.exists()` for a directory. -/
def dirExists (fs : FS) (d : List String) : Bool :=
  fs.dirs.contains d

/-- `shutil.rmtree(d)`: removes `d` and everything below it. -/
def removeTree (fs : FS) (d : List String) : FS :=
  { dirs := fs.dirs.filter (fun x => !(d.isPrefixOf x)),
    files := fs.files.filter (fun x => !(d.isPrefixOf x)) }

/-! ### app/services/conversation_service.py -/

/-- First half of list membership update: replace the first element
satisfying `p` by its image under `f` (SQLAlchemy mutates the single row
returned by `.first()` / `db.get`). -/
def updateFirst {α : Type} (p : α → Bool) (f : α → α) : List α → List α
  | [] => []
  | a :: rest => if p a then f a :: rest else a :: updateFirst p f rest

/-- `title[0].upper() + title[1:]` (conversation_service.py line 72), made
total on the character list (the source guards it with `if title:`). -/
def capitalizeFirst (t : String) : String :=
  match t.data with
  | [] => t
  | c :: cs => String.mk (Char.toUpper c :: cs)

/-- `generate_conversation_title(prompt)` (conversation_service.py lines
51-74): `words = prompt.strip().split()`; the title is the stripped prompt
when it has at most five words, else the first five words joined and
ellipsis-truncated; a non-empty title gets its first character upper-cased. -/
def generate_conversation_title (prompt : String) : String :=
  let words := pyWords (pyStrip prompt)
  let title :=
    if words.length ≤ 5 then pyStrip prompt
    else String.intercalate " " (words.take 5) ++ "..."
  if title != "" then capitalizeFirst title else title

/-- `create_conversation(db, user_id, title, initial_prompt)`
(conversation_service.py lines 16-48).  `hex8` stands for the fresh
`uuid.uuid4().hex[:8]` suffix of the fallback title. -/
def create_conversation (db : DB) (user_id : Nat)
    (title initial_prompt : Option String) (hex8 : String) : Conversation × DB :=
  let title' :=
    if !(truthyStr title) && truthyStr initial_prompt then
      generate_conversation_title (initial_prompt.getD "")
    else if !(truthyStr title) then
      "Conversation " ++ hex8
    else title.getD ""
  let conversation : Conversation := ⟨db.nextId, user_id, title'⟩
  (conversation,
   { db with conversations := db.conversations ++ [conversation],
             nextId := db.nextId + 1 })

/-- `get_or_create_conversation(db, conversation_id, user_id, title)`
(conversation_service.py lines 77-119): point lookup filtered by owner when
an id is given (raising ValueError on a miss), otherwise a fresh row whose
title falls back to a randomized name. -/
def get_or_create_conversation (db : DB) (conversation_id : Option Nat)
    (user_id : Nat) (title : Option String) (hex8 : String) :
    Except Exc (Conversation × DB) :=
  match conversation_id with
  | some cid =>
    match db.conversations.find? (fun c => c.id == cid && c.user_id == user_id) with
    | none => .error (.valueError ("Conversation with ID " ++ toString cid ++
        " not found or belongs to a different user"))
    | some conversation => .ok (conversation, db)
  | none =>
    let conversation : Conversation :=
      ⟨db.nextId, user_id, if truthyStr title then title.getD "" else "Conversation " ++ hex8⟩
    (.ok (conversation,
      { db with conversations := db.conversations ++ [conversation],
                nextId := db.nextId + 1 }))

/-- `select(func.max(Animation.version)).where(conversation_id == cid)`
followed by `or 0` (conversation_service.py lines 157-161): the maximum
version among this conversation's rows, `0` when there are none. -/
def maxVersion (db : DB) (cid : Nat) : Nat :=
  ((db.animations.filter (fun a => a.conversation_id == cid)).map
    (fun a => a.version)).foldr Nat.max 0

/-- `save_animation(...)` (conversation_service.py lines 122-181): computes
`version = max(existing versions for this conversation) + 1` and inserts the
row.  The `query` parameter is accepted but, because the source shadows it
with the SELECT statement, it is not stored (see `Animation`). -/
def save_animation (db : DB) (conversation_id user_id : Nat) (query : String)
    (generated_code video_url quality : String) (success : Bool)
    (error_message : Option String) (status : Option AnimationStatus)
    (progress : Nat) (status_message : Option String) : Animation × DB :=
  let _unusedQuery := query
  let max_version := maxVersion db conversation_id
  let animation : Animation :=
    { id := db.nextId
      conversation_id := conversation_id
      user_id := user_id
      generated_code := generated_code
      video_url := video_url
      version := max_version + 1
      quality := quality
      success := success
      error_message := error_message
      status := status.getD .pending    -- `status or AnimationStatus.PENDING`
      progress := progress
      status_message := status_message }
  (animation,
   { db with animations := db.animations ++ [animation], nextId := db.nextId + 1 })

/-! ### app/services/message_service.py -/

/-- `create_message(db, conversation_id, user_id, content, message_type,
animation_id)` (message_service.py lines 14-47). -/
def create_message (db : DB) (conversation_id user_id : Nat) (content : String)
    (message_type : MessageType) (animation_id : Option Nat) : Message × DB :=
  let message : Message :=
    ⟨db.nextId, conversation_id, user_id, content, message_type, animation_id⟩
  (message,
   { db with messages := db.messages ++ [message], nextId := db.nextId + 1 })

/-! ### app/services/animation_service.py -/

/-- The response of the status poll (models/animation.py
`AnimationStatusResponse`; timestamps not modelled). -/
structure AnimationStatusResponse where
  id : Nat
  status : AnimationStatus
  progress : Nat
  status_message : Option String
  video_url : Option String
deriving DecidableEq, Repr

/-- `get_animation_status(db, animation_id, user_id)` (animation_service.py
lines 14-50): point lookup filtered by both id and owner; the stored
`video_url` is exposed only when the status equals `"completed"` (the source
compares the str-enum member to the string `"completed"`, which is equality
on the enum value). -/
def get_animation_status (db : DB) (animation_id user_id : Nat) :
    Option AnimationStatusResponse :=
  match db.animations.find? (fun a => a.id == animation_id && a.user_id == user_id) with
  | none => none
  | some animation =>
    some { id := animation.id
           status := animation.status
           progress := animation.progress
           status_message := animation.status_message
           video_url := if animation.status = .completed then some animation.video_url else none }

/-- `update_animation_status(db, animation_id, status, progress,
status_message)` (animation_service.py lines 53-89): looks the row up by id
alone and, when found, overwrites status, progress and status message
unconditionally. -/
def update_animation_status (db : DB) (animation_id : Nat)
    (status : AnimationStatus) (progress : Nat) (status_message : Option String) :
    Bool × DB :=
  match db.animations.find? (fun a => a.id == animation_id) with
  | none => (false, db)
  | some _ =>
    (true,
     { db with animations :=
        (updateFirst (fun a => a.id == animation_id)
          (fun a => { a with status := status, progress := progress,
                             status_message := status_message })
          db.animations) })

/-! ### app/services/manim_service.py -/

/-- `QUALITY_FLAG_MAP` (manim_service.py lines 24-28).  The dict keys are the
`QualityOption` str-enum members, which compare equal to their value strings,
so the map is modelled on strings. -/
def QUALITY_FLAG_MAP : List (String × String) :=
  [("low", "-ql"), ("medium", "-qm"), ("high", "-qh")]

/-- `QUALITY_FLAG_MAP.get(quality, "-ql")` (manim_service.py line 125):
lookup with the low-quality flag as default. -/
def qualityFlag (quality : String) : String :=
  (QUALITY_FLAG_MAP.lookup quality).getD "-ql"

/-- Bool test of `needle in hay` on character lists (Python `in` for str). -/
def listContains (hay needle : List Char) : Bool :=
  match hay with
  | [] => needle == []
  | _ :: t => needle.isPrefixOf hay || listContains t needle

/-- Python `sub in s` on strings. -/
def strContains (s sub : String) : Bool :=
  listContains s.data sub.data

/-- The literal Manim scene returned for queries mentioning both a triangle
and a square (manim_service.py lines 58-80); content is kept abstract up to
the identifying header since no claim reads the program text. -/
def triangleSquareScene : String :=
  "from manim import *\n\nclass GeneratedManimScene(Scene):  # triangle-to-square scene\n"

/-- The default Manim scene (manim_service.py lines 83-107). -/
def defaultCircleScene : String :=
  "from manim import *\n\nclass GeneratedManimScene(Scene):  # default circle scene\n"

/-- `generate_manim_code_from_llm(query, previous_code)` (manim_service.py
lines 31-107): echoes a truthy `previous_code`, otherwise picks one of two
canned scenes from the query text. -/
def generate_manim_code_from_llm (query : String) (previous_code : Option String) :
    String :=
  if truthyStr previous_code then previous_code.getD ""
  else if strContains (pyLower query) "triangle" && strContains (pyLower query) "square" then
    triangleSquareScene
  else defaultCircleScene

/-- `str(path)` for display inside the subprocess argument vector. -/
def pathStr (p : List String) : String := String.intercalate "/" p

/-- The argument vector built for the renderer subprocess (manim_service.py
lines 128-135). -/
def manimCmd (script_path media_dir : List String) (quality : String) :
    List String :=
  ["python", "-m", "manim", pathStr script_path, "GeneratedManimScene",
   qualityFlag quality, "--format", "mp4", "--media_dir", pathStr media_dir]

/-- The external world of one orchestrator run: the fresh uuid4 values drawn,
the renderer subprocess outcome and the files it writes (relative to the
media directory), and whether an rmtree in the cleanup would fail. -/
structure Env where
  jobId : String
  convHex : String
  renderReturncode : Int
  renderStderr : String
  renderedFiles : List (List String)
  rmtreeFails : Bool
deriving DecidableEq, Repr

/-- Files the renderer wrote, placed under the media directory. -/
def addRenderedFiles (fs : FS) (media_dir : List String)
    (rel : List (List String)) : FS :=
  rel.foldl (fun fs r => fs.writeFile (media_dir ++ r)) fs

/-- `run_manim_script(script_path, media_dir, quality)` (manim_service.py
lines 110-162): builds the command, runs the subprocess to completion
capturing both streams, and classifies by return code, surfacing stderr in
the failure message. -/
def run_manim_script (env : Env) (fs : FS) (script_path media_dir : List String)
    (quality : String) : (Bool × String) × FS :=
  let _cmd := manimCmd script_path media_dir quality
  if env.renderReturncode != 0 then
    ((false, "Manim execution failed: " ++ env.renderStderr), fs)
  else
    ((true, ""), addRenderedFiles fs media_dir env.renderedFiles)

/-- `list((media_dir / "videos" / "GeneratedManimScene").glob("*.mp4"))`
(manim_service.py lines 312-313): the mp4 files directly inside the expected
nested directory — and nowhere else. -/
def globMp4 (fs : FS) (dir : List String) : List (List String) :=
  fs.files.filter (fun p =>
    p.dropLast == dir &&
    (match p.getLast? with
     | some name => ".mp4".data.isSuffixOf name.data
     | none => false))

/-- Lines 366-371: `db.get(Animation, animation_id)` followed by field
mutation when the row exists. -/
def setAnimationResult (db : DB) (animation_id : Nat)
    (generated_code video_url : String) : DB :=
  { db with animations :=
      (updateFirst (fun a => a.id == animation_id)
        (fun a => { a with generated_code := generated_code,
                           video_url := video_url, success := true })
        db.animations) }

/-- The mutable locals of one orchestrator run that survive into the except
handler and the finally block: the session state, the filesystem, and the
`conversation_id` variable. -/
structure St where
  db : DB
  fs : FS
  conv : Option Nat
deriving DecidableEq, Repr

/-- The tuple `generate_animation_from_query` returns (manim_service.py
lines 172, 185-190). -/
structure Ret where
  success : Bool
  video_url : String
  error_message : String
  animation_id : Option Nat
  conversation_id : Option Nat
deriving DecidableEq, Repr

/-- Lines 204-216 of the try body: resolve the conversation (possibly
raising ValueError) and record the user's query as a `user` message. -/
def resolveConversation (env : Env) (query : String)
    (conversation_id0 : Option Nat) (user_id : Option Nat) (hasDb : Bool)
    (db0 : DB) (fs0 : FS) : Except (Exc × St) St :=
  if hasDb && user_id.isSome then
    match get_or_create_conversation db0 conversation_id0 (user_id.getD 0) none env.convHex with
    | .error e => .error (e, ⟨db0, fs0, conversation_id0⟩)
    | .ok (conversation, db1) =>
      let db2 := (create_message db1 conversation.id (user_id.getD 0) query .user none).2
      .ok ⟨db2, fs0, some conversation.id⟩
  else .ok ⟨db0, fs0, conversation_id0⟩

/-- Lines 219-383 of the try body, from animation creation onward, starting
from the state `s1` left by conversation resolution. -/
def gaqAfterConversation (env : Env) (query quality : String)
    (user_id : Option Nat) (previous_code : Option String) (hasDb : Bool)
    (job_dir media_dir : List String) (s1 : St) :
    Except (Exc × St) (Ret × St) :=
  -- 219-236: insert the PENDING animation row
  let (animation_id, s2) :=
    if hasDb && user_id.isSome && s1.conv.isSome then
      let (animation, db') := save_animation s1.db (s1.conv.getD 0) (user_id.getD 0)
        query "" "" quality false none (some .pending) 0
        (some "Initializing animation generation")
      (some animation.id, { s1 with db := db' })
    else (none, s1)
  -- 239-246
  let s3 :=
    if hasDb && animation_id.isSome then
      { s2 with db := (update_animation_status s2.db (animation_id.getD 0)
          .processing 10 (some "Generating Manim code")).2 }
    else s2
  -- 249
  let generated_code := generate_manim_code_from_llm query previous_code
  -- 252-259
  let s4 :=
    if hasDb && animation_id.isSome then
      { s3 with db := (update_animation_status s3.db (animation_id.getD 0)
          .processing 30 (some "Code generated, preparing to render animation")).2 }
    else s3
  -- 262-264: materialize the generated source
  let script_path := job_dir ++ ["generated_manim_scene.py"]
  let s5 := { s4 with fs := s4.fs.writeFile script_path }
  -- 267-274
  let s6 :=
    if hasDb && animation_id.isSome then
      { s5 with db := (update_animation_status s5.db (animation_id.getD 0)
          .processing 40 (some "Starting animation rendering")).2 }
    else s5
  -- 277: run the renderer subprocess
  let ((success, error_msg), fsR) := run_manim_script env s6.fs script_path media_dir quality
  let s7 := { s6 with fs := fsR }
  -- 279-299: render failure (an early `return` in the source)
  if !success then
    let s8 :=
      if hasDb && animation_id.isSome then
        { s7 with db := (update_animation_status s7.db (animation_id.getD 0)
            .failed 0 (some ("Animation generation failed: " ++ error_msg))).2 }
      else s7
    let s9 :=
      if hasDb && user_id.isSome && s8.conv.isSome then
        { s8 with db := (create_message s8.db (s8.conv.getD 0) (user_id.getD 0)
            ("Failed to generate animation: " ++ error_msg) .ai none).2 }
      else s8
    .ok (⟨false, "", error_msg, animation_id, s9.conv⟩, s9)
  else
    -- 302-309
    let s8 :=
      if hasDb && animation_id.isSome then
        { s7 with db := (update_animation_status s7.db (animation_id.getD 0)
            .processing 80 (some "Rendering complete, processing video")).2 }
      else s7
    -- 311-313: artifact discovery at the expected nested path only
    let video_dir := media_dir ++ ["videos", "GeneratedManimScene"]
    let video_files := globMp4 s8.fs video_dir
    -- 315-337: artifact missing (an early `return` in the source)
    if video_files.isEmpty then
      let error_msg := "No video output was generated"
      let s9 :=
        if hasDb && animation_id.isSome then
          { s8 with db := (update_animation_status s8.db (animation_id.getD 0)
              .failed 0 (some error_msg)).2 }
        else s8
      let s10 :=
        if hasDb && user_id.isSome && s9.conv.isSome then
          { s9 with db := (create_message s9.db (s9.conv.getD 0) (user_id.getD 0)
              ("Failed to generate animation: " ++ error_msg) .ai none).2 }
        else s9
      .ok (⟨false, "", error_msg, animation_id, s10.conv⟩, s10)
    else
      -- 340
      let _video_path := video_files.headD []
      -- 343: `settings.STATIC_DIR` — not a declared Settings field, so this
      -- attribute read raises AttributeError on every path that reaches it
      match getSettingPath "STATIC_DIR" with
      | none => .error (Exc.attributeError "STATIC_DIR", s8)
      | some staticBase =>
        -- 343-352 (unreachable given config.py, modelled for completeness)
        let static_dir := staticBase ++ ["manim_videos"]
        let s9 := { s8 with fs := s8.fs.mkdirp static_dir }
        let target_name := env.jobId ++ "_GeneratedManimScene.mp4"
        let target_path := static_dir ++ [target_name]
        let s10 := { s9 with fs := s9.fs.writeFile target_path }
        let video_url := "/manim_videos/" ++ target_name
        -- 355-381
        let s11 :=
          if hasDb && animation_id.isSome then
            let dbA := (update_animation_status s10.db (animation_id.getD 0)
              .completed 100 (some "Animation generated successfully")).2
            let dbB := setAnimationResult dbA (animation_id.getD 0) generated_code video_url
            let dbC := (create_message dbB (s10.conv.getD 0) (user_id.getD 0)
              "Animation generated successfully" .ai animation_id).2
            { s10 with db := dbC }
          else s10
        .ok (⟨true, video_url, "", animation_id, s11.conv⟩, s11)

/-- The whole try body (manim_service.py lines 203-383). -/
def gaqBody (env : Env) (query quality : String) (conversation_id0 : Option Nat)
    (user_id : Option Nat) (previous_code : Option String) (hasDb : Bool)
    (job_dir media_dir : List String) (db0 : DB) (fs0 : FS) :
    Except (Exc × St) (Ret × St) :=
  match resolveConversation env query conversation_id0 user_id hasDb db0 fs0 with
  | .error es => .error es
  | .ok s1 =>
    gaqAfterConversation env query quality user_id previous_code hasDb job_dir media_dir s1

/-- The `finally` block (manim_service.py lines 400-406).  It first reads
`settings.CLEANUP_TEMP_FILES`, which config.py does not declare, so the read
itself raises AttributeError, replacing whatever the function was about to
return.  The guarded rmtree (with its swallowed failure) is modelled for the
hypothetical case of the attribute existing. -/
def finallyCleanup (env : Env) (job_dir : List String) (s : St) (pending : Ret) :
    Except Exc Ret × St :=
  match getSettingBool "CLEANUP_TEMP_FILES" with
  | none => (.error (Exc.attributeError "CLEANUP_TEMP_FILES"), s)
  | some b =>
    if b && dirExists s.fs job_dir then
      if env.rmtreeFails then (.ok pending, s)   -- failure logged, swallowed
      else (.ok pending, { s with fs := removeTree s.fs job_dir })
    else (.ok pending, s)

/-- The observable outcome of one orchestrator run: `pending` is the tuple
the function was about to return when control entered the finally block,
`final` is what the call actually delivers after the finally block, and
`db` / `fs` are the resulting store and filesystem. -/
structure RunOut where
  pending : Ret
  final : Except Exc Ret
  db : DB
  fs : FS
deriving Repr

/-- `generate_animation_from_query(query, quality, conversation_id, user_id,
previous_code, db)` (manim_service.py lines 165-406): workspace creation,
the try body, the catch-all except handler (lines 385-398, which records an
ai error message when possible and returns `None` in the animation-id slot),
and the finally block. -/
def generate_animation_from_query (env : Env) (query quality : String)
    (conversation_id : Option Nat) (user_id : Option Nat)
    (previous_code : Option String) (hasDb : Bool) (db0 : DB) (fs0 : FS) :
    RunOut :=
  -- 192-201
  let job_dir := TEMP_BASE_DIR ++ [env.jobId]
  let media_dir := job_dir ++ ["media_output"]
  let fs1 := (fs0.mkdirp job_dir).mkdirp media_dir
  let (pending, sAfter) :=
    match gaqBody env query quality conversation_id user_id previous_code hasDb
        job_dir media_dir db0 fs1 with
    | .ok (ret, s) => (ret, s)
    | .error (e, s) =>
      -- 385-398: except Exception
      let s' :=
        if hasDb && user_id.isSome && s.conv.isSome then
          { s with db := (create_message s.db (s.conv.getD 0) (user_id.getD 0)
              ("Error generating animation: " ++ excMsg e) .ai none).2 }
        else s
      (⟨false, "", "Error generating animation: " ++ excMsg e, none, s'.conv⟩, s')
  let (final, sFin) := finallyCleanup env job_dir sAfter pending
  ⟨pending, final, sFin.db, sFin.fs⟩

/-! ## Shared helper lemmas -/

theorem mk_cons_ne_empty (c : Char) (cs : List Char) : String.mk (c :: cs) ≠ "" :=
  fun h => List.noConfusion (congrArg String.data h)

theorem append_eq_empty {a b : String} (h : a ++ b = "") : a = "" ∧ b = "" := by
  have h2 : a.data ++ b.data = ([] : List Char) := congrArg String.data h
  have h3 := List.append_eq_nil.mp h2
  exact ⟨String.ext h3.1, String.ext h3.2⟩

theorem find?_append_of_none {α : Type} {p : α → Bool} {l1 l2 : List α}
    (h : ∀ a ∈ l1, p a = false) : (l1 ++ l2).find? p = l2.find? p := by
  induction l1 with
  | nil => rfl
  | cons b t ih =>
    rw [List.cons_append, List.find?_cons_of_neg _ (by simp [h b (by simp)])]
    exact ih fun a ha => h a (by simp [ha])

theorem updateFirst_append_of_none {α : Type} {p : α → Bool} {f : α → α}
    {l1 : List α} (l2 : List α) (h : ∀ a ∈ l1, p a = false) :
    updateFirst p f (l1 ++ l2) = l1 ++ updateFirst p f l2 := by
  induction l1 with
  | nil => rfl
  | cons b t ih =>
    rw [List.cons_append, updateFirst, if_neg (by simp [h b (by simp)])]
    rw [ih fun a ha => h a (by simp [ha]), List.cons_append]

theorem find?_updateFirst {α : Type} {p : α → Bool} {f : α → α} {l : List α} {a : α}
    (hfind : l.find? p = some a) (hpres : ∀ x, p x = true → p (f x) = true) :
    (updateFirst p f l).find? p = some (f a) := by
  induction l with
  | nil => exact absurd hfind (by simp)
  | cons b t ih =>
    by_cases hb : p b = true
    · rw [List.find?_cons_of_pos _ hb] at hfind
      injection hfind with hba
      subst hba
      rw [updateFirst, if_pos hb, List.find?_cons_of_pos _ (hpres _ hb)]
    · rw [List.find?_cons_of_neg _ (by simp [hb])] at hfind
      rw [updateFirst, if_neg (by simp [hb]),
        List.find?_cons_of_neg _ (by simp [hb])]
      exact ih hfind

/-- `update_animation_status` on a store whose animations are a fresh row
appended after rows with other ids: the fresh row is the one updated. -/
theorem update_animation_status_fresh (db : DB) (l1 : List Animation)
    (row : Animation) (st : AnimationStatus) (p : Nat) (m : Option String)
    (hanims : db.animations = l1 ++ [row])
    (hfresh : ∀ a ∈ l1, (a.id == row.id) = false) :
    update_animation_status db row.id st p m =
      (true, { db with animations :=
        l1 ++ [{ row with status := st, progress := p, status_message := m }] }) := by
  unfold update_animation_status
  rw [hanims, find?_append_of_none hfresh]
  rw [List.find?_cons_of_pos _ (by simp)]
  rw [updateFirst_append_of_none _ hfresh]
  simp [updateFirst]

/-- Variant of the fresh-row update lemma keyed on the updated id. -/
theorem update_fresh_append (cs : List Conversation) (l1 : List Animation)
    (ms : List Message) (n aid : Nat) (row : Animation) (st' : AnimationStatus)
    (p : Nat) (m : Option String) (hid : row.id = aid)
    (hfresh : ∀ a ∈ l1, (a.id == aid) = false) :
    update_animation_status ⟨cs, l1 ++ [row], ms, n⟩ aid st' p m =
      (true, ⟨cs,
              l1 ++ [{ row with status := st', progress := p, status_message := m }],
              ms, n⟩) := by
  subst hid
  exact update_animation_status_fresh ⟨cs, l1 ++ [row], ms, n⟩ l1 row st' p m rfl hfresh

/-! ## C8 — quality-to-flag mapping -/

/-- C8: the quality-to-flag mapping is total: each of the tiers low, medium,
high maps to its defined renderer token ("-ql", "-qm", "-qh"), and every
other string (an unrecognized or missing tier) yields the low-quality token
"-ql"; being a Lean function, it returns a value (never raises) on all
inputs. -/
theorem quality_flag_total (q : String) :
    qualityFlag q =
      if q = "low" then "-ql"
      else if q = "medium" then "-qm"
      else if q = "high" then "-qh"
      else "-ql" := by
  by_cases h1 : q = "low" <;> by_cases h2 : q = "medium" <;> by_cases h3 : q = "high" <;>
    first
    | (subst h1; rfl)
    | (subst h2; rfl)
    | (subst h3; rfl)
    | (have e1 : (q == "low") = false := by simpa using h1
       have e2 : (q == "medium") = false := by simpa using h2
       have e3 : (q == "high") = false := by simpa using h3
       simp [qualityFlag, QUALITY_FLAG_MAP, List.lookup, h1, h2, h3, e1, e2, e3])

/-! ## C2 — terminal states are not protected -/

/-- A COMPLETED animation row used to exhibit a transition out of a terminal
state. -/
def completedAnimation : Animation :=
  { id := 2, conversation_id := 1, user_id := 1, generated_code := "code",
    video_url := "/manim_videos/x.mp4", version := 1, quality := "low",
    success := true, error_message := none, status := .completed,
    progress := 100, status_message := some "Animation generated successfully" }

/-- A store holding one COMPLETED animation. -/
def dbCompleted : DB :=
  { conversations := [⟨1, 1, "t"⟩], animations := [completedAnimation],
    messages := [], nextId := 10 }

/-- C2 counterexample: `update_animation_status` moves a COMPLETED animation
back to PROCESSING (reporting success), so a status-update operation does
transition an animation out of a terminal state. -/
theorem update_moves_completed_to_processing :
    (update_animation_status dbCompleted 2 .processing 50 none).1 = true ∧
    (update_animation_status dbCompleted 2 .processing 50 none).2.animations.map
        (fun a => a.status) = [.processing] := by
  exact ⟨rfl, rfl⟩

/-- C2 amended: `update_animation_status` applies the requested status,
progress and message unconditionally to the row found by id — including
rows currently in the terminal states COMPLETED or FAILED — and leaves the
store unchanged (returning false) only when no row has the given id. -/
theorem update_animation_status_unconditional (db : DB) (aid : Nat)
    (st : AnimationStatus) (p : Nat) (m : Option String) :
    (db.animations.find? (fun a => a.id == aid) = none →
       update_animation_status db aid st p m = (false, db)) ∧
    (∀ a, db.animations.find? (fun a => a.id == aid) = some a →
       (update_animation_status db aid st p m).1 = true ∧
       (update_animation_status db aid st p m).2.animations.find?
           (fun a => a.id == aid) =
         some { a with status := st, progress := p, status_message := m }) := by
  constructor
  · intro h
    simp [update_animation_status, h]
  · intro a ha
    refine ⟨by simp [update_animation_status, ha], ?_⟩
    simp only [update_animation_status, ha]
    exact find?_updateFirst ha (fun x hx => by simpa using hx)

/-- Witness for the amended C2 theorem at the COMPLETED row: the update is
applied and reported successful. -/
theorem update_animation_status_unconditional_witness :
    (update_animation_status dbCompleted 2 .processing 50 none).1 = true ∧
    (update_animation_status dbCompleted 2 .processing 50 none).2.animations.find?
        (fun a => a.id == 2) =
      some ({ completedAnimation with
              status := .processing, progress := 50, status_message := none }) :=
  (update_animation_status_unconditional dbCompleted 2 .processing 50 none).2
    completedAnimation rfl

/-! ## C10 — status poll gates the video URL on COMPLETED -/

/-- C10: `get_animation_status` returns `none` (a not-found result, not an
error) when no stored animation matches both the requested id and the
requesting user; when the owner's row is found it reports id, status,
progress and status message, and exposes the stored `video_url` exactly when
the status is COMPLETED — for PENDING, PROCESSING and FAILED rows the
response carries `video_url = none` even though a value is stored. -/
theorem get_animation_status_spec (db : DB) (aid uid : Nat) :
    ((∀ a ∈ db.animations, ¬(a.id = aid ∧ a.user_id = uid)) →
       get_animation_status db aid uid = none) ∧
    (∀ a, db.animations.find? (fun a => a.id == aid && a.user_id == uid) = some a →
       a.status = .completed →
       get_animation_status db aid uid =
         some ⟨a.id, a.status, a.progress, a.status_message, some a.video_url⟩) ∧
    (∀ a, db.animations.find? (fun a => a.id == aid && a.user_id == uid) = some a →
       a.status ≠ .completed →
       get_animation_status db aid uid =
         some ⟨a.id, a.status, a.progress, a.status_message, none⟩) := by
  refine ⟨?_, ?_, ?_⟩
  · intro h
    have hn : db.animations.find? (fun a => a.id == aid && a.user_id == uid) = none := by
      refine List.find?_eq_none.mpr fun x hx => ?_
      simpa using h x hx
    simp [get_animation_status, hn]
  · intro a ha hc
    simp [get_animation_status, ha, hc]
  · intro a ha hc
    simp [get_animation_status, ha, hc]

/-- A PROCESSING animation that nevertheless has a video_url stored. -/
def processingWithUrl : Animation :=
  { id := 3, conversation_id := 1, user_id := 5, generated_code := "",
    video_url := "/manim_videos/stored.mp4", version := 2, quality := "low",
    success := false, error_message := none, status := .processing,
    progress := 40, status_message := some "Starting animation rendering" }

/-- A COMPLETED animation owned by user 5. -/
def completedForPoll : Animation :=
  { id := 4, conversation_id := 1, user_id := 5, generated_code := "c",
    video_url := "/manim_videos/done.mp4", version := 3, quality := "low",
    success := true, error_message := none, status := .completed,
    progress := 100, status_message := some "Animation generated successfully" }

/-- Store for exercising the status poll. -/
def dbPoll : DB :=
  { conversations := [⟨1, 5, "t"⟩],
    animations := [processingWithUrl, completedForPoll],
    messages := [], nextId := 20 }

/-- Witness for C10: the COMPLETED row exposes its URL, the PROCESSING row
suppresses its stored URL, the absent id and the foreign owner both give
`none`. -/
theorem get_animation_status_spec_witness :
    get_animation_status dbPoll 4 5 =
      some ⟨4, .completed, 100, some "Animation generated successfully",
            some "/manim_videos/done.mp4"⟩ ∧
    get_animation_status dbPoll 3 5 =
      some ⟨3, .processing, 40, some "Starting animation rendering", none⟩ ∧
    get_animation_status dbPoll 99 5 = none ∧
    get_animation_status dbPoll 4 6 = none :=
  ⟨(get_animation_status_spec dbPoll 4 5).2.1 completedForPoll rfl rfl,
   (get_animation_status_spec dbPoll 3 5).2.2 processingWithUrl rfl (by decide),
   (get_animation_status_spec dbPoll 99 5).1 (by decide),
   (get_animation_status_spec dbPoll 4 6).1 (by decide)⟩

/-! ## C9 — conversation titles can be empty -/

/-- C9 counterexample: deriving a title from a whitespace-only initial
prompt produces the empty string, both in `generate_conversation_title`
itself and in the title stored by `create_conversation`. -/
theorem title_empty_on_whitespace_prompt :
    generate_conversation_title " " = "" ∧
    (create_conversation ⟨[], [], [], 0⟩ 1 none (some " ") "abcd1234").1.title = "" := by
  exact ⟨by decide, by decide⟩

theorem capitalizeFirst_ne_empty (t : String) (h : t ≠ "") :
    capitalizeFirst t ≠ "" := by
  unfold capitalizeFirst
  split
  · exact h
  · exact mk_cons_ne_empty _ _

theorem generate_conversation_title_empty_iff (p : String) :
    generate_conversation_title p = "" ↔ pyStrip p = "" := by
  constructor
  · intro h
    by_contra ht
    have hne : generate_conversation_title p ≠ "" := by
      simp only [generate_conversation_title]
      split
      · -- at most five words: the candidate title is the stripped prompt
        rw [if_pos (by simpa using ht)]
        exact capitalizeFirst_ne_empty _ ht
      · -- more than five words: the candidate title ends in "..."
        have hdots : String.intercalate " " ((pyWords (pyStrip p)).take 5) ++ "..." ≠ "" := by
          intro hc
          exact absurd (append_eq_empty hc).2 (by decide)
        rw [if_pos (by simpa using hdots)]
        exact capitalizeFirst_ne_empty _ hdots
    exact hne h
  · intro ht
    simp only [generate_conversation_title]
    rw [ht]
    decide

/-- C9 amended: every path that sets a conversation title yields a
non-empty string, with one exception: when no explicit title is given and
the title is derived from a non-empty initial prompt consisting only of
whitespace, the stored title is the empty string.  Formally, an empty stored
title can only arise that way. -/
theorem create_conversation_empty_title_only_for_blank_prompt
    (db : DB) (uid : Nat) (title ip : Option String) (hex8 : String) :
    (create_conversation db uid title ip hex8).1.title = "" →
      truthyStr title = false ∧
      ∃ s, ip = some s ∧ s ≠ "" ∧ pyStrip s = "" := by
  unfold create_conversation
  simp only
  split
  · rename_i hc
    intro h
    have h1 : truthyStr title = false := by
      rcases Bool.and_eq_true _ _ |>.mp hc with ⟨hnt, _⟩
      simpa using hnt
    have h2 : truthyStr ip = true := (Bool.and_eq_true _ _ |>.mp hc).2
    match ip, h2 with
    | some s, h2 =>
      refine ⟨h1, s, rfl, by simpa [truthyStr] using h2, ?_⟩
      exact (generate_conversation_title_empty_iff s).mp (by simpa using h)
  · split
    · intro h
      exact absurd (append_eq_empty h).1 (by decide)
    · rename_i hc1 hc2
      intro h
      have ht : truthyStr title = true := by
        cases hT : truthyStr title
        · rw [hT] at hc2
          simp at hc2
        · rfl
      match title, ht with
      | some s, ht =>
        exact absurd h (by simpa [truthyStr] using ht)

/-- Witness for the amended C9 theorem, at the whitespace-only prompt. -/
theorem create_conversation_empty_title_only_for_blank_prompt_witness :
    truthyStr none = false ∧
    ∃ s, (some " " : Option String) = some s ∧ s ≠ "" ∧ pyStrip s = "" :=
  create_conversation_empty_title_only_for_blank_prompt ⟨[], [], [], 0⟩ 1 none
    (some " ") "ab" (by decide)

/-! ## C1 — per-conversation version numbering -/

/-- Driver for a sequence of N sequentially accepted jobs in one
conversation: each job performs the orchestrator's initial
`save_animation` insert (manim_service.py lines 221-234). -/
def save_animation_jobs (db : DB) (cid uid : Nat) (query quality : String) :
    Nat → DB
  | 0 => db
  | n + 1 =>
    (save_animation (save_animation_jobs db cid uid query quality n) cid uid
      query "" "" quality false none (some .pending) 0
      (some "Initializing animation generation")).2

/-- The version numbers of one conversation's animations, in insertion
order. -/
def convVersions (db : DB) (cid : Nat) : List Nat :=
  (db.animations.filter (fun a => a.conversation_id == cid)).map (fun a => a.version)

theorem foldr_max_base (l : List Nat) (b : Nat) :
    l.foldr Nat.max b = Nat.max (l.foldr Nat.max 0) b := by
  induction l with
  | nil => simp
  | cons x t ih => simp [List.foldr_cons, ih, Nat.max_assoc]

theorem foldr_max_range (n : Nat) :
    (List.range' 1 n).foldr Nat.max 0 = n := by
  induction n with
  | zero => rfl
  | succ k ih =>
    rw [List.range'_concat, List.foldr_append, foldr_max_base, ih]
    simp [Nat.max_def]
    omega

theorem convVersions_save (db : DB) (cid uid : Nat) (q g v qual : String)
    (suc : Bool) (em : Option String) (st : Option AnimationStatus) (pr : Nat)
    (sm : Option String) :
    convVersions (save_animation db cid uid q g v qual suc em st pr sm).2 cid =
      convVersions db cid ++ [maxVersion db cid + 1] := by
  simp [save_animation, convVersions, List.filter_append]

/-- C1: starting from a store with no rows for the conversation,
N sequentially accepted jobs receive exactly the version numbers
1, 2, …, N: `save_animation` seeds each version as
max(existing versions) + 1 with base 0, so the versions listed in insertion
order are `List.range' 1 N` — the set {1..N}, strictly increasing, with no
duplicates and no gaps. -/
theorem save_animation_versions (db0 : DB) (cid uid : Nat) (query quality : String)
    (n : Nat) (h0 : ∀ a ∈ db0.animations, a.conversation_id ≠ cid) :
    convVersions (save_animation_jobs db0 cid uid query quality n) cid =
      List.range' 1 n := by
  induction n with
  | zero =>
    show convVersions db0 cid = []
    unfold convVersions
    rw [List.filter_eq_nil_iff.mpr (fun a ha => by simpa using h0 a ha)]
    rfl
  | succ k ih =>
    have hmax : maxVersion (save_animation_jobs db0 cid uid query quality k) cid = k := by
      show (convVersions (save_animation_jobs db0 cid uid query quality k) cid).foldr
        Nat.max 0 = k
      rw [ih]
      exact foldr_max_range k
    show convVersions (save_animation (save_animation_jobs db0 cid uid query quality k)
      cid uid query "" "" quality false none (some .pending) 0
      (some "Initializing animation generation")).2 cid = List.range' 1 (k + 1)
    rw [convVersions_save, ih, hmax, List.range'_concat]
    simp [Nat.add_comm]

/-- Witness for C1: three sequential jobs on a fresh store get versions
[1, 2, 3]. -/
theorem save_animation_versions_witness :
    (∀ a ∈ (⟨[], [], [], 0⟩ : DB).animations, a.conversation_id ≠ 5) ∧
    convVersions (save_animation_jobs ⟨[], [], [], 0⟩ 5 7 "q" "low" 3) 5 =
      List.range' 1 3 :=
  ⟨by simp, save_animation_versions ⟨[], [], [], 0⟩ 5 7 "q" "low" 3 (by simp)⟩

/-! ## C3 — workspace cleanup never runs: the finally block itself raises -/

/-- A job with no database session whose renderer fails. -/
def envRenderFailNoDb : Env := ⟨"job1", "h", 1, "boom", [], false⟩

/-- C3 (code bug): the finally block reads `settings.CLEANUP_TEMP_FILES`,
which config.py does not declare, so on every run the cleanup block itself
raises AttributeError instead of removing the workspace — the first conjunct
shows the finally step yields that error whatever the job outcome, and the
remaining conjuncts evaluate a concrete run, whose job directory
temp_manim_jobs/job1 is still present afterwards. -/
theorem cleanup_raises_and_leaks_workspace :
    (∀ (env : Env) (jd : List String) (s : St) (p : Ret),
       (finallyCleanup env jd s p).1 =
         .error (Exc.attributeError "CLEANUP_TEMP_FILES")) ∧
    (generate_animation_from_query envRenderFailNoDb "q" "low" none none none
        false ⟨[], [], [], 0⟩ ⟨[], []⟩).final =
      .error (Exc.attributeError "CLEANUP_TEMP_FILES") ∧
    dirExists (generate_animation_from_query envRenderFailNoDb "q" "low" none
        none none false ⟨[], [], [], 0⟩ ⟨[], []⟩).fs
      ["temp_manim_jobs", "job1"] = true :=
  ⟨fun _ _ _ _ => rfl, rfl, rfl⟩

/-! ## C4 — artifact discovery has no recursive fallback -/

/-- A job whose renderer succeeds but writes its artifact into
videos/480p15 rather than videos/GeneratedManimScene. -/
def envArtifactElsewhere : Env :=
  ⟨"j4", "h", 0, "", [["videos", "480p15", "GeneratedManimScene.mp4"]], false⟩

/-- C4 counterexample: after a successful renderer exit a matching .mp4 file
exists under the output directory (inside videos/480p15), yet the job fails
with the artifact-not-found message — there is no fall back to a recursive
search rooted at the output directory. -/
theorem no_recursive_fallback_in_discovery :
    (generate_animation_from_query envArtifactElsewhere "q" "low" none none
        none false ⟨[], [], [], 0⟩ ⟨[], []⟩).pending.error_message =
      "No video output was generated" ∧
    (generate_animation_from_query envArtifactElsewhere "q" "low" none none
        none false ⟨[], [], [], 0⟩ ⟨[], []⟩).pending.success = false ∧
    (generate_animation_from_query envArtifactElsewhere "q" "low" none none
        none false ⟨[], [], [], 0⟩ ⟨[], []⟩).fs.files.any
      (fun f => ["temp_manim_jobs", "j4", "media_output"].isPrefixOf f &&
        (match f.getLast? with
         | some name => ".mp4".data.isSuffixOf name.data
         | none => false)) = true := by
  exact ⟨rfl, rfl, rfl⟩

theorem artifact_message_distinct (s : String) :
    "No video output was generated" ≠ "Manim execution failed: " ++ s := by
  intro h
  have h2 : ("No video output was generated").data =
      ("Manim execution failed: ").data ++ s.data := congrArg String.data h
  rw [show ("No video output was generated").data
        = 'N' :: ("o video output was generated").data from rfl,
      show ("Manim execution failed: ").data
        = 'M' :: ("anim execution failed: ").data from rfl] at h2
  simp only [List.cons_append, List.cons.injEq] at h2
  exact absurd h2.1 (by decide)

/-- C4 amended: artifact discovery inspects exactly the expected nested
directory videos/GeneratedManimScene under the output directory — a file is
discovered iff it lies directly in that directory and ends in ".mp4", so
there is no recursive fallback — and when nothing is discovered the job
fails with the message "No video output was generated", which differs from
every possible subprocess-failure message. -/
theorem discovery_expected_path_only :
    (∀ (fs : FS) (md p : List String),
       p ∈ globMp4 fs (md ++ ["videos", "GeneratedManimScene"]) ↔
         (p ∈ fs.files ∧ p.dropLast = md ++ ["videos", "GeneratedManimScene"] ∧
          ∃ name, p.getLast? = some name ∧ ".mp4".data.isSuffixOf name.data = true)) ∧
    (∀ s : String, "No video output was generated" ≠ "Manim execution failed: " ++ s) := by
  constructor
  · intro fs md p
    simp only [globMp4, List.mem_filter, Bool.and_eq_true, beq_iff_eq]
    constructor
    · rintro ⟨hmem, hdrop, hlast⟩
      refine ⟨hmem, hdrop, ?_⟩
      match hg : p.getLast? with
      | some name =>
        rw [hg] at hlast
        exact ⟨name, rfl, hlast⟩
      | none =>
        rw [hg] at hlast
        exact absurd hlast (by simp)
    · rintro ⟨hmem, hdrop, name, hg, hend⟩
      exact ⟨hmem, hdrop, by rw [hg]; exact hend⟩
  · exact artifact_message_distinct

/-- Witness for the amended C4 theorem: a file directly in the expected
directory is discovered. -/
theorem discovery_expected_path_only_witness :
    ["a", "videos", "GeneratedManimScene", "v.mp4"] ∈
      globMp4 ⟨[], [["a", "videos", "GeneratedManimScene", "v.mp4"]]⟩
        (["a"] ++ ["videos", "GeneratedManimScene"]) :=
  (discovery_expected_path_only.1 ⟨[], [["a", "videos", "GeneratedManimScene", "v.mp4"]]⟩
      ["a"] ["a", "videos", "GeneratedManimScene", "v.mp4"]).mpr
    ⟨by decide, by decide, "v.mp4", by decide, by decide⟩


/-! ## Orchestrator run lemmas (shared by C5, C6, C7) -/

/-- Render-failure core: from any state with a resolved conversation, a
db-backed job whose subprocess exits non-zero inserts the PENDING row, walks
it through the PROCESSING updates, marks it FAILED with the captured stderr,
and appends the failure ai message. -/
theorem gaqAfter_renderFail (env : Env) (q qual : String) (pc : Option String)
    (jd md : List String) (u : Nat) (db1 : DB) (fs1 : FS) (cid : Nat)
    (hret : env.renderReturncode ≠ 0)
    (hfresh : ∀ a ∈ db1.animations, (a.id == db1.nextId) = false) :
    gaqAfterConversation env q qual (some u) pc true jd md ⟨db1, fs1, some cid⟩ =
      .ok (⟨false, "", "Manim execution failed: " ++ env.renderStderr,
            some db1.nextId, some cid⟩,
           ⟨⟨db1.conversations,
             db1.animations ++
               [⟨db1.nextId, cid, u, "", "", maxVersion db1 cid + 1, qual, false,
                 none, .failed, 0,
                 some ("Animation generation failed: " ++
                   ("Manim execution failed: " ++ env.renderStderr))⟩],
             db1.messages ++
               [⟨db1.nextId + 1, cid, u,
                 "Failed to generate animation: " ++
                   ("Manim execution failed: " ++ env.renderStderr), .ai, none⟩],
             db1.nextId + 2⟩,
            fs1.writeFile (jd ++ ["generated_manim_scene.py"]),
            some cid⟩) := by
  have hretB : (env.renderReturncode != 0) = true := bne_iff_ne.mpr hret
  have e1 := update_fresh_append db1.conversations db1.animations db1.messages
    (db1.nextId + 1) db1.nextId
    ⟨db1.nextId, cid, u, "", "", maxVersion db1 cid + 1, qual, false, none,
      .pending, 0, some "Initializing animation generation"⟩
    .processing 10 (some "Generating Manim code") rfl hfresh
  have e2 := update_fresh_append db1.conversations db1.animations db1.messages
    (db1.nextId + 1) db1.nextId
    ⟨db1.nextId, cid, u, "", "", maxVersion db1 cid + 1, qual, false, none,
      .processing, 10, some "Generating Manim code"⟩
    .processing 30 (some "Code generated, preparing to render animation") rfl hfresh
  have e3 := update_fresh_append db1.conversations db1.animations db1.messages
    (db1.nextId + 1) db1.nextId
    ⟨db1.nextId, cid, u, "", "", maxVersion db1 cid + 1, qual, false, none,
      .processing, 30, some "Code generated, preparing to render animation"⟩
    .processing 40 (some "Starting animation rendering") rfl hfresh
  have e4 := update_fresh_append db1.conversations db1.animations db1.messages
    (db1.nextId + 1) db1.nextId
    ⟨db1.nextId, cid, u, "", "", maxVersion db1 cid + 1, qual, false, none,
      .processing, 40, some "Starting animation rendering"⟩
    .failed 0 (some ("Animation generation failed: " ++
      ("Manim execution failed: " ++ env.renderStderr))) rfl hfresh
  simp [gaqAfterConversation, save_animation, run_manim_script, create_message,
    hretB, e1, e2, e3, e4]

/-- Conversation resolution, fresh-conversation case (no id given). -/
theorem resolveConversation_fresh (env : Env) (q : String) (u : Nat)
    (db0 : DB) (fs0 : FS) :
    resolveConversation env q none (some u) true db0 fs0 =
      .ok ⟨⟨db0.conversations ++ [⟨db0.nextId, u, "Conversation " ++ env.convHex⟩],
            db0.animations,
            db0.messages ++ [⟨db0.nextId + 1, db0.nextId, u, q, .user, none⟩],
            db0.nextId + 2⟩,
           fs0, some db0.nextId⟩ := rfl

/-- Conversation resolution, existing-conversation case (id found and
owned). -/
theorem resolveConversation_found (env : Env) (q : String) (u cid : Nat)
    (db0 : DB) (fs0 : FS) (c : Conversation)
    (hfind : db0.conversations.find? (fun c => c.id == cid && c.user_id == u) = some c) :
    resolveConversation env q (some cid) (some u) true db0 fs0 =
      .ok ⟨⟨db0.conversations, db0.animations,
            db0.messages ++ [⟨db0.nextId, c.id, u, q, .user, none⟩],
            db0.nextId + 1⟩,
           fs0, some c.id⟩ := by
  simp [resolveConversation, get_or_create_conversation, hfind, create_message]

/-- Whole-run outcome of a render-failing db-backed job on a fresh
conversation. -/
theorem run_renderFail_fresh (env : Env) (q qual : String) (pc : Option String)
    (u : Nat) (db0 : DB) (fs0 : FS) (hwf : db0.wf)
    (hret : env.renderReturncode ≠ 0) :
    generate_animation_from_query env q qual none (some u) pc true db0 fs0 =
      ⟨⟨false, "", "Manim execution failed: " ++ env.renderStderr,
         some (db0.nextId + 2), some db0.nextId⟩,
       .error (Exc.attributeError "CLEANUP_TEMP_FILES"),
       ⟨db0.conversations ++ [⟨db0.nextId, u, "Conversation " ++ env.convHex⟩],
        db0.animations ++
          [⟨db0.nextId + 2, db0.nextId, u, "", "", 1, qual, false, none, .failed, 0,
            some ("Animation generation failed: " ++
              ("Manim execution failed: " ++ env.renderStderr))⟩],
        (db0.messages ++ [⟨db0.nextId + 1, db0.nextId, u, q, .user, none⟩]) ++
          [⟨db0.nextId + 3, db0.nextId, u,
            "Failed to generate animation: " ++
              ("Manim execution failed: " ++ env.renderStderr), .ai, none⟩],
        db0.nextId + 2 + 2⟩,
       ((fs0.mkdirp (TEMP_BASE_DIR ++ [env.jobId])).mkdirp
          (TEMP_BASE_DIR ++ [env.jobId] ++ ["media_output"])).writeFile
         (TEMP_BASE_DIR ++ [env.jobId] ++ ["generated_manim_scene.py"])⟩ := by
  have hfreshA : ∀ a ∈ db0.animations, (a.id == db0.nextId + 2) = false := by
    intro a ha
    have h1 := (hwf.2.1 a ha).1
    simp only [beq_eq_false_iff_ne]
    omega
  have hafter := gaqAfter_renderFail env q qual pc (TEMP_BASE_DIR ++ [env.jobId])
    (TEMP_BASE_DIR ++ [env.jobId] ++ ["media_output"]) u
    ⟨db0.conversations ++ [⟨db0.nextId, u, "Conversation " ++ env.convHex⟩],
     db0.animations,
     db0.messages ++ [⟨db0.nextId + 1, db0.nextId, u, q, .user, none⟩],
     db0.nextId + 2⟩
    ((fs0.mkdirp (TEMP_BASE_DIR ++ [env.jobId])).mkdirp
      (TEMP_BASE_DIR ++ [env.jobId] ++ ["media_output"]))
    db0.nextId hret hfreshA
  have hmax : maxVersion
      ⟨db0.conversations ++ [⟨db0.nextId, u, "Conversation " ++ env.convHex⟩],
       db0.animations,
       db0.messages ++ [⟨db0.nextId + 1, db0.nextId, u, q, .user, none⟩],
       db0.nextId + 2⟩ db0.nextId = 0 := by
    unfold maxVersion
    have hfil : List.filter (fun a => a.conversation_id == db0.nextId) db0.animations = [] :=
      List.filter_eq_nil_iff.mpr (fun a ha => by
        have h2 := (hwf.2.1 a ha).2
        simp only [beq_iff_eq]
        omega)
    rw [show (⟨db0.conversations ++ [⟨db0.nextId, u, "Conversation " ++ env.convHex⟩],
         db0.animations,
         db0.messages ++ [⟨db0.nextId + 1, db0.nextId, u, q, .user, none⟩],
         db0.nextId + 2⟩ : DB).animations = db0.animations from rfl, hfil]
    rfl
  rw [hmax] at hafter
  simp at hafter
  simp [generate_animation_from_query, gaqBody, resolveConversation_fresh, hafter,
    finallyCleanup, getSettingBool]

/-- Whole-run outcome of a render-failing db-backed job on an existing owned
conversation. -/
theorem run_renderFail_existing (env : Env) (q qual : String) (pc : Option String)
    (u cid : Nat) (c : Conversation) (db0 : DB) (fs0 : FS) (hwf : db0.wf)
    (hret : env.renderReturncode ≠ 0)
    (hfind : db0.conversations.find? (fun c => c.id == cid && c.user_id == u) = some c) :
    generate_animation_from_query env q qual (some cid) (some u) pc true db0 fs0 =
      ⟨⟨false, "", "Manim execution failed: " ++ env.renderStderr,
         some (db0.nextId + 1), some c.id⟩,
       .error (Exc.attributeError "CLEANUP_TEMP_FILES"),
       ⟨db0.conversations,
        db0.animations ++
          [⟨db0.nextId + 1, c.id, u, "", "", maxVersion db0 c.id + 1, qual, false,
            none, .failed, 0,
            some ("Animation generation failed: " ++
              ("Manim execution failed: " ++ env.renderStderr))⟩],
        (db0.messages ++ [⟨db0.nextId, c.id, u, q, .user, none⟩]) ++
          [⟨db0.nextId + 2, c.id, u,
            "Failed to generate animation: " ++
              ("Manim execution failed: " ++ env.renderStderr), .ai, none⟩],
        db0.nextId + 1 + 2⟩,
       ((fs0.mkdirp (TEMP_BASE_DIR ++ [env.jobId])).mkdirp
          (TEMP_BASE_DIR ++ [env.jobId] ++ ["media_output"])).writeFile
         (TEMP_BASE_DIR ++ [env.jobId] ++ ["generated_manim_scene.py"])⟩ := by
  have hfreshB : ∀ a ∈ db0.animations, (a.id == db0.nextId + 1) = false := by
    intro a ha
    have h1 := (hwf.2.1 a ha).1
    simp only [beq_eq_false_iff_ne]
    omega
  have hafter := gaqAfter_renderFail env q qual pc (TEMP_BASE_DIR ++ [env.jobId])
    (TEMP_BASE_DIR ++ [env.jobId] ++ ["media_output"]) u
    ⟨db0.conversations, db0.animations,
     db0.messages ++ [⟨db0.nextId, c.id, u, q, .user, none⟩],
     db0.nextId + 1⟩
    ((fs0.mkdirp (TEMP_BASE_DIR ++ [env.jobId])).mkdirp
      (TEMP_BASE_DIR ++ [env.jobId] ++ ["media_output"]))
    c.id hret hfreshB
  have hmaxe : maxVersion
      ⟨db0.conversations, db0.animations,
       db0.messages ++ [⟨db0.nextId, c.id, u, q, .user, none⟩],
       db0.nextId + 1⟩ c.id = maxVersion db0 c.id := rfl
  rw [hmaxe] at hafter
  simp at hafter
  simp [generate_animation_from_query, gaqBody,
    resolveConversation_found env q u cid db0 _ c hfind, hafter,
    finallyCleanup, getSettingBool]

/-! ## C7 — render failure bookkeeping -/

/-- C7: for every db-backed job whose renderer subprocess exits with a
non-zero return code — whether the conversation is fresh or an existing one
owned by the user — the job ends with the animation row in status FAILED,
success = false, progress = 0 and no artifact URL set, and the trailing
message of the store is an ai message in the same conversation whose content
contains the captured stderr text. -/
theorem render_failure_marks_failed (env : Env) (q qual : String)
    (pc : Option String) (u : Nat) (cid0 : Option Nat) (db0 : DB) (fs0 : FS)
    (hwf : db0.wf) (hret : env.renderReturncode ≠ 0)
    (hres : cid0 = none ∨ ∃ cid c, cid0 = some cid ∧
      db0.conversations.find? (fun c => c.id == cid && c.user_id == u) = some c) :
    ∃ a m,
      (generate_animation_from_query env q qual cid0 (some u) pc true db0
          fs0).db.animations.getLast? = some a ∧
      a.status = .failed ∧ a.success = false ∧ a.progress = 0 ∧ a.video_url = "" ∧
      (generate_animation_from_query env q qual cid0 (some u) pc true db0
          fs0).db.messages.getLast? = some m ∧
      m.type = .ai ∧ m.conversation_id = a.conversation_id ∧
      (∃ pre, m.content = pre ++ env.renderStderr) := by
  rcases hres with hnone | ⟨cid, c, hc0, hfind⟩
  · subst hnone
    rw [run_renderFail_fresh env q qual pc u db0 fs0 hwf hret]
    refine ⟨_, _, List.getLast?_concat _, rfl, rfl, rfl, rfl,
      List.getLast?_concat _, rfl, rfl,
      ⟨"Failed to generate animation: " ++ "Manim execution failed: ", ?_⟩⟩
    exact (String.append_assoc _ _ _).symm ▸ rfl
  · subst hc0
    rw [run_renderFail_existing env q qual pc u cid c db0 fs0 hwf hret hfind]
    refine ⟨_, _, List.getLast?_concat _, rfl, rfl, rfl, rfl,
      List.getLast?_concat _, rfl, rfl,
      ⟨"Failed to generate animation: " ++ "Manim execution failed: ", ?_⟩⟩
    exact (String.append_assoc _ _ _).symm ▸ rfl

/-- A concrete failing job for the C7 witness. -/
def envC7 : Env := ⟨"j7", "h", 2, "render exploded", [], false⟩

/-- Witness for C7 at a concrete failing job. -/
theorem render_failure_marks_failed_witness :
    ∃ a m,
      (generate_animation_from_query envC7 "draw" "high" none (some 9) none true
          ⟨[], [], [], 1⟩ ⟨[], []⟩).db.animations.getLast? = some a ∧
      a.status = .failed ∧ a.success = false ∧ a.progress = 0 ∧ a.video_url = "" ∧
      (generate_animation_from_query envC7 "draw" "high" none (some 9) none true
          ⟨[], [], [], 1⟩ ⟨[], []⟩).db.messages.getLast? = some m ∧
      m.type = .ai ∧ m.conversation_id = a.conversation_id ∧
      (∃ pre, m.content = pre ++ envC7.renderStderr) :=
  render_failure_marks_failed envC7 "draw" "high" none 9 none ⟨[], [], [], 1⟩ ⟨[], []⟩
    ⟨by simp, by simp, by simp⟩ (by decide) (Or.inl rfl)

/-! ## C5 — exceptions do not persist a FAILED status -/

/-- A db-backed run whose renderer succeeds and writes the expected artifact,
so that the success path's `settings.STATIC_DIR` read raises. -/
def envC5 : Env :=
  ⟨"j5", "h", 0, "", [["videos", "GeneratedManimScene", "GeneratedManimScene.mp4"]], false⟩

/-- C5 counterexample: a db-backed run whose renderer succeeds reaches the
success path's read of `settings.STATIC_DIR`, which raises after the
animation id was allocated; the handler records an ai message, yet the
animation row keeps status PROCESSING — no FAILED status is persisted before
the orchestrator returns. -/
theorem exception_leaves_processing_status :
    (generate_animation_from_query envC5 "q" "low" none (some 7) none true
        ⟨[], [], [], 1⟩ ⟨[], []⟩).pending.error_message =
      "Error generating animation: \x27Settings\x27 object has no attribute \x27STATIC_DIR\x27" ∧
    (generate_animation_from_query envC5 "q" "low" none (some 7) none true
        ⟨[], [], [], 1⟩ ⟨[], []⟩).db.animations.map (fun a => (a.id, a.status)) =
      [(3, .processing)] ∧
    (generate_animation_from_query envC5 "q" "low" none (some 7) none true
        ⟨[], [], [], 1⟩ ⟨[], []⟩).db.messages.getLast?.map (fun m => m.type) =
      some .ai :=
  ⟨rfl, rfl, rfl⟩

/-- C5 amended: when an exception aborts the try body at any point, the
orchestrator records a visible ai error message in the conversation
(whenever a session, a user and a resolved conversation are present) but
does not attempt to persist a FAILED status: the animation rows after the
run are exactly those at the moment of the raise, and the pending return
carries None in the animation-id slot. -/
theorem exception_handler_records_message_only (env : Env) (q qual : String)
    (cid0 : Option Nat) (uid : Option Nat) (pc : Option String) (hasDb : Bool)
    (db0 : DB) (fs0 : FS) (e : Exc) (s : St)
    (hbody : gaqBody env q qual cid0 uid pc hasDb (TEMP_BASE_DIR ++ [env.jobId])
        (TEMP_BASE_DIR ++ [env.jobId] ++ ["media_output"]) db0
        ((fs0.mkdirp (TEMP_BASE_DIR ++ [env.jobId])).mkdirp
          (TEMP_BASE_DIR ++ [env.jobId] ++ ["media_output"])) = .error (e, s)) :
    (generate_animation_from_query env q qual cid0 uid pc hasDb db0 fs0).db.animations
        = s.db.animations ∧
    (generate_animation_from_query env q qual cid0 uid pc hasDb db0 fs0).pending.animation_id
        = none ∧
    (generate_animation_from_query env q qual cid0 uid pc hasDb db0 fs0).pending.error_message
        = "Error generating animation: " ++ excMsg e ∧
    ((hasDb && uid.isSome && s.conv.isSome) = true →
       (generate_animation_from_query env q qual cid0 uid pc hasDb db0 fs0).db.messages
         = s.db.messages ++ [⟨s.db.nextId, s.conv.getD 0, uid.getD 0,
             "Error generating animation: " ++ excMsg e, .ai, none⟩]) := by
  by_cases hg : (hasDb && uid.isSome && s.conv.isSome) = true <;>
    (simp only [generate_animation_from_query, hbody]
     simp [hg, finallyCleanup, getSettingBool, create_message])

/-- A db-backed run for the C5/C6 witnesses whose renderer succeeds, so the
STATIC_DIR read raises. -/
def envW : Env := ⟨"jw", "h", 0, "", [["videos", "GeneratedManimScene", "v.mp4"]], false⟩

/-- The job state at the moment the success path reads `settings.STATIC_DIR`
in the concrete witness run. -/
def stW : St :=
  ⟨⟨[⟨1, 7, "Conversation h"⟩],
    [⟨3, 1, 7, "", "", 1, "low", false, none, .processing, 80,
      some "Rendering complete, processing video"⟩],
    [⟨2, 1, 7, "q", .user, none⟩], 4⟩,
   ⟨[["temp_manim_jobs", "jw"], ["temp_manim_jobs", "jw", "media_output"]],
    [["temp_manim_jobs", "jw", "generated_manim_scene.py"],
     ["temp_manim_jobs", "jw", "media_output", "videos", "GeneratedManimScene", "v.mp4"]]⟩,
   some 1⟩

/-- Witness for the amended C5 theorem at a concrete run (the renderer
succeeds; the STATIC_DIR read raises). -/
theorem exception_handler_records_message_only_witness :
    (generate_animation_from_query envW "q" "low" none (some 7) none true
        ⟨[], [], [], 1⟩ ⟨[], []⟩).db.animations = stW.db.animations ∧
    (generate_animation_from_query envW "q" "low" none (some 7) none true
        ⟨[], [], [], 1⟩ ⟨[], []⟩).pending.animation_id = none ∧
    (generate_animation_from_query envW "q" "low" none (some 7) none true
        ⟨[], [], [], 1⟩ ⟨[], []⟩).pending.error_message =
      "Error generating animation: " ++ excMsg (Exc.attributeError "STATIC_DIR") ∧
    ((true && (some 7 : Option Nat).isSome && stW.conv.isSome) = true →
       (generate_animation_from_query envW "q" "low" none (some 7) none true
           ⟨[], [], [], 1⟩ ⟨[], []⟩).db.messages =
         stW.db.messages ++ [⟨stW.db.nextId, stW.conv.getD 0, (some 7 : Option Nat).getD 0,
             "Error generating animation: " ++ excMsg (Exc.attributeError "STATIC_DIR"),
             .ai, none⟩]) :=
  exception_handler_records_message_only envW "q" "low" none (some 7) none true
    ⟨[], [], [], 1⟩ ⟨[], []⟩ (Exc.attributeError "STATIC_DIR") stW rfl

/-! ## C6 — the returned tuple and the allocated ids -/

/-- Another db-backed run that fails via the STATIC_DIR exception. -/
def envC6 : Env :=
  ⟨"j6", "h", 0, "", [["videos", "GeneratedManimScene", "GeneratedManimScene.mp4"]], false⟩

/-- C6 counterexample: a run that fails via a raised exception returns None
in the animation-id slot of the tuple even though an animation row had been
allocated (and is still present in the store). -/
theorem exception_return_drops_animation_id :
    (generate_animation_from_query envC6 "q" "low" none (some 9) none true
        ⟨[], [], [], 1⟩ ⟨[], []⟩).db.animations.map (fun a => a.id) = [3] ∧
    (generate_animation_from_query envC6 "q" "low" none (some 9) none true
        ⟨[], [], [], 1⟩ ⟨[], []⟩).pending.animation_id = none ∧
    (generate_animation_from_query envC6 "q" "low" none (some 9) none true
        ⟨[], [], [], 1⟩ ⟨[], []⟩).pending.conversation_id = some 1 :=
  ⟨rfl, rfl, rfl⟩

/-- C6 amended: the tuple built at the render-failure return carries the
allocated animation id and the resolved conversation id alongside a false
success flag and an empty artifact location; the tuple built at the
exception return still carries the conversation id and an empty artifact
location, but None in the animation-id slot. -/
theorem failure_returns_carry_ids :
    (∀ (env : Env) (q qual : String) (pc : Option String) (u : Nat)
       (cid0 : Option Nat) (db0 : DB) (fs0 : FS), db0.wf →
       env.renderReturncode ≠ 0 →
       (cid0 = none ∨ ∃ cid c, cid0 = some cid ∧
         db0.conversations.find? (fun c => c.id == cid && c.user_id == u) = some c) →
       ∃ a, (generate_animation_from_query env q qual cid0 (some u) pc true db0
               fs0).db.animations.getLast? = some a ∧
         (generate_animation_from_query env q qual cid0 (some u) pc true db0
             fs0).pending =
           ⟨false, "", "Manim execution failed: " ++ env.renderStderr,
            some a.id, some a.conversation_id⟩) ∧
    (∀ (env : Env) (q qual : String) (cid0 : Option Nat) (uid : Option Nat)
       (pc : Option String) (hasDb : Bool) (db0 : DB) (fs0 : FS) (e : Exc) (s : St),
       gaqBody env q qual cid0 uid pc hasDb (TEMP_BASE_DIR ++ [env.jobId])
           (TEMP_BASE_DIR ++ [env.jobId] ++ ["media_output"]) db0
           ((fs0.mkdirp (TEMP_BASE_DIR ++ [env.jobId])).mkdirp
             (TEMP_BASE_DIR ++ [env.jobId] ++ ["media_output"])) = .error (e, s) →
       (generate_animation_from_query env q qual cid0 uid pc hasDb db0
           fs0).pending.animation_id = none ∧
       (generate_animation_from_query env q qual cid0 uid pc hasDb db0
           fs0).pending.conversation_id = s.conv ∧
       (generate_animation_from_query env q qual cid0 uid pc hasDb db0
           fs0).pending.video_url = "") := by
  constructor
  · intro env q qual pc u cid0 db0 fs0 hwf hret hres
    rcases hres with hnone | ⟨cid, c, hc0, hfind⟩
    · subst hnone
      rw [run_renderFail_fresh env q qual pc u db0 fs0 hwf hret]
      exact ⟨_, List.getLast?_concat _, rfl⟩
    · subst hc0
      rw [run_renderFail_existing env q qual pc u cid c db0 fs0 hwf hret hfind]
      exact ⟨_, List.getLast?_concat _, rfl⟩
  · intro env q qual cid0 uid pc hasDb db0 fs0 e s hbody
    by_cases hg : (hasDb && uid.isSome && s.conv.isSome) = true <;>
      (simp only [generate_animation_from_query, hbody]
       simp [hg, finallyCleanup, getSettingBool])

/-- Witness for the amended C6 theorem: the render-failure side at a
concrete failing job, and the exception side at a concrete run. -/
theorem failure_returns_carry_ids_witness :
    (∃ a, (generate_animation_from_query envC7 "draw" "high" none (some 9) none true
            ⟨[], [], [], 1⟩ ⟨[], []⟩).db.animations.getLast? = some a ∧
       (generate_animation_from_query envC7 "draw" "high" none (some 9) none true
           ⟨[], [], [], 1⟩ ⟨[], []⟩).pending =
         ⟨false, "", "Manim execution failed: " ++ envC7.renderStderr,
          some a.id, some a.conversation_id⟩) ∧
    ((generate_animation_from_query envW "q" "low" none (some 7) none true
        ⟨[], [], [], 1⟩ ⟨[], []⟩).pending.animation_id = none ∧
     (generate_animation_from_query envW "q" "low" none (some 7) none true
        ⟨[], [], [], 1⟩ ⟨[], []⟩).pending.conversation_id = stW.conv ∧
     (generate_animation_from_query envW "q" "low" none (some 7) none true
        ⟨[], [], [], 1⟩ ⟨[], []⟩).pending.video_url = "") :=
  ⟨failure_returns_carry_ids.1 envC7 "draw" "high" none 9 none ⟨[], [], [], 1⟩ ⟨[], []⟩
     ⟨by simp, by simp, by simp⟩ (by decide) (Or.inl rfl),
   failure_returns_carry_ids.2 envW "q" "low" none (some 7) none true
     ⟨[], [], [], 1⟩ ⟨[], []⟩ (Exc.attributeError "STATIC_DIR") stW rfl⟩

end ManimApp
